import Mathlib

/-!
Verification development for the ImageTextExtractor pipeline
(src/ocr_processor.py, src/csv_converter.py, src/ai_client.py,
src/ai_application.py, src/main.py).

Strings are embedded as `List Char`.  The Python text primitives used by
the code are modelled faithfully:
  * `text.split('\n')`   -> `splitNl text []`
  * `line.strip()`       -> `pyStrip line` (ASCII whitespace set)
  * `line.split()`       -> `pySplitWs line []`
  * `s.lower()`          -> `pyLower s` (ASCII case folding)
Python's whitespace set is restricted to its ASCII members
(space, tab, newline, carriage return, vertical tab, form feed);
every definition below uses the same set, as the Python code does.
Timestamps (`datetime.now()`), file paths and the external OCR / HTTP
collaborators are nondeterministic or external, so they enter the
model as explicit parameters.
-/

/-- Python's `str` ASCII whitespace test, used by `strip` and `split`. -/
def isPySpace (c : Char) : Bool :=
  c = ' ' || c = '\t' || c = '\n' || c = '\x0d' || c = '\x0b' || c = '\x0c'

/-- Model of Python `text.split('\n')`: `splitNl s acc` splits `s` at every
newline, with `acc` the (reversed) chunk read so far.  Like Python, it
keeps empty chunks and always returns at least one chunk. -/
def splitNl : List Char → List Char → List (List Char)
  | [], acc => [acc.reverse]
  | c :: rest, acc =>
    if c = '\n' then acc.reverse :: splitNl rest []
    else splitNl rest (c :: acc)

/-- Model of Python `line.strip()`: drop whitespace from both ends. -/
def pyStrip (s : List Char) : List Char :=
  (((s.dropWhile isPySpace).reverse).dropWhile isPySpace).reverse

/-- Model of Python `text.split()` (no separator): split at whitespace
runs, discarding empty chunks.  `acc` is the (reversed) chunk so far. -/
def pySplitWs : List Char → List Char → List (List Char)
  | [], acc => if acc.isEmpty then [] else [acc.reverse]
  | c :: rest, acc =>
    if isPySpace c then
      if acc.isEmpty then pySplitWs rest []
      else acc.reverse :: pySplitWs rest []
    else pySplitWs rest (c :: acc)

/-- The line-processing step shared by `OCRProcessor.extract_data_structured`
(src/ocr_processor.py line 123) and `CSVConverter.convert_text_to_csv`
(src/csv_converter.py line 41):
`[line.strip() for line in text.split('\n') if line.strip()]`. -/
def processLines (text : List Char) : List (List Char) :=
  ((splitNl text []).map pyStrip).filter (fun l => !l.isEmpty)

/-- Model of Python `'\n'.join`-style joining used to state the idempotence
property: the split lines, rejoined with line breaks. -/
def joinLines : List (List Char) → List Char
  | [] => []
  | [l] => l
  | l :: ls => l ++ '\n' :: joinLines ls

/-- Word-counting fold used in proofs: counts transitions from whitespace
into a word while scanning; `inWord` says whether the previous character
was inside a word. -/
def countWordsAux : List Char → Bool → Nat
  | [], _ => 0
  | c :: rest, inWord =>
    if isPySpace c then countWordsAux rest false
    else (if inWord then 0 else 1) + countWordsAux rest true

/-- Number of whitespace-delimited words of a string. -/
def countWords (s : List Char) : Nat :=
  countWordsAux s false

/-- One record produced by `OCRProcessor.extract_data_structured`
(src/ocr_processor.py lines 126-133): keys `linha`, `conteudo`,
`palavras`, `caracteres`. -/
structure StructuredRow where
  linha : Nat
  conteudo : List Char
  palavras : Nat
  caracteres : Nat
deriving DecidableEq

/-- Row construction loop of `extract_data_structured`
(`for i, line in enumerate(lines): ... 'linha': i + 1 ...`), with `k` the
1-based index of the first remaining line. -/
def buildStructuredRows : List (List Char) → Nat → List StructuredRow
  | [], _ => []
  | l :: ls, k =>
    ⟨k, l, (pySplitWs l []).length, l.length⟩ :: buildStructuredRows ls (k + 1)

/-- The pure structuring part of `OCRProcessor.extract_data_structured`
(src/ocr_processor.py lines 118-135) applied to the already-extracted
OCR text. -/
def extract_data_structured (text : List Char) : List StructuredRow :=
  buildStructuredRows (processLines text) 1

/-- One data row written by `CSVConverter.convert_text_to_csv`
(src/csv_converter.py lines 44-53): columns `Linha`, `Conteúdo`,
`Palavras`, `Caracteres`, `Imagem_Origem`, `Data_Extração`. -/
structure CsvRow where
  linha : Nat
  conteudo : List Char
  palavras : Nat
  caracteres : Nat
  imagemOrigem : List Char
  dataExtracao : List Char
deriving DecidableEq

/-- Row construction loop of `convert_text_to_csv`
(`for i, line in enumerate(lines, 1)`), with `k` the index of the first
remaining line and `ts` the `datetime.now()` timestamp string. -/
def buildCsvRows : List (List Char) → Nat → List Char → List Char → List CsvRow
  | [], _, _, _ => []
  | l :: ls, k, img, ts =>
    ⟨k, l, (pySplitWs l []).length, l.length, img, ts⟩ ::
      buildCsvRows ls (k + 1) img ts

/-- Data rows of the frame built by `CSVConverter.convert_text_to_csv`
(src/csv_converter.py lines 40-55). -/
def convert_text_to_csv_rows (text img ts : List Char) : List CsvRow :=
  buildCsvRows (processLines text) 1 img ts

/-- Header cells of the tabular file: the dictionary keys used in
`convert_text_to_csv` (src/csv_converter.py lines 46-53), which pandas
turns into the columns of the frame built from a non-empty record list. -/
def csvHeader : List (List Char) :=
  ["Linha".data, "Conteúdo".data, "Palavras".data, "Caracteres".data,
   "Imagem_Origem".data, "Data_Extração".data]

/-- The delimited file written by `df.to_csv(..., index=False)`: one
header line holding the frame's column names, then the data rows. -/
structure CsvFile where
  header : List (List Char)
  dataRows : List CsvRow
deriving DecidableEq

/-- File produced by `CSVConverter.convert_text_to_csv`
(src/csv_converter.py lines 28-61).  `pd.DataFrame(data)` derives its
columns from the records' keys; for the empty record list the frame has
no columns, so `to_csv` writes an empty header line — modelled as an
empty `header`. -/
def convert_text_to_csv_file (text img ts : List Char) : CsvFile :=
  { header :=
      if (convert_text_to_csv_rows text img ts).isEmpty then []
      else csvHeader
    dataRows := convert_text_to_csv_rows text img ts }

/-- The single summary record built by `CSVConverter.create_summary_csv`
(src/csv_converter.py lines 101-111).  `outBase` stands for
`os.path.basename(output_file)` and `ts` for the timestamp, both passed
in because path handling and the clock are external. -/
structure SummaryRow where
  imagem : List Char
  totalLinhas : Nat
  totalPalavras : Nat
  totalCaracteres : Nat
  arquivoCsvGerado : List Char
  dataProcessamento : List Char
deriving DecidableEq

/-- Model of `CSVConverter.create_summary_csv` (src/csv_converter.py
lines 89-117): `lines` via strip-split-filter, `words = text.split()`,
`Total_Caracteres = len(text)`. -/
def create_summary_csv_row (imageName text outBase ts : List Char) : SummaryRow :=
  { imagem := imageName
    totalLinhas := (processLines text).length
    totalPalavras := (pySplitWs text []).length
    totalCaracteres := text.length
    arquivoCsvGerado := outBase
    dataProcessamento := ts }

/-- Fixed instructional text placed before the caller's text by
`PythonAI._build_correction_prompt` (src/ai_client.py lines 53-66): the
f-string template up to the interpolation point. -/
def promptIntro : List Char :=
  "\nPor favor, corrija e formate o texto a seguir que foi extraído por OCR de uma imagem.\n\nProblemas comuns a corrigir:\n- Palavras grudadas (ex: \"palavraoutra\" → \"palavra outra\")\n- Caracteres mal reconhecidos\n- Falta de espaçamento adequado\n- Pontuação incorreta\n- Erros ortográficos e gramaticais\n\nMantenha o sentido original do texto, mas torne-o legível e bem formatado.\n\nTEXTO A CORRIGIR:\n".data

/-- Fixed instructional text placed after the caller's text by
`PythonAI._build_correction_prompt` (src/ai_client.py lines 66-69). -/
def promptOutro : List Char :=
  "\n\nTEXTO CORRIGIDO:\n".data

/-- Model of `PythonAI._build_correction_prompt` (src/ai_client.py
lines 43-70): the f-string interpolates the caller's text between the
two fixed template parts. -/
def build_correction_prompt (text : List Char) : List Char :=
  promptIntro ++ text ++ promptOutro

/-- The request payload `PythonAI.correct_text` (src/ai_client.py
lines 21-38) passes to `generate_content` as `contents`: exactly the
built prompt. -/
def correct_text_payload (text : List Char) : List Char :=
  build_correction_prompt text

/-- Values stored in the structured records of
`extract_data_structured` / `convert_structured_data_to_csv`
(Python ints and strings). -/
inductive PyVal where
  | intV (n : Int)
  | strV (s : List Char)
deriving DecidableEq

/-- A Python dict modelled as an insertion-ordered association list. -/
abbrev PyDict := List (List Char × PyVal)

/-- Python dict assignment `d[k] = v`: overwrite in place when the key
is present (keeping its position), append otherwise. -/
def dictSet (d : PyDict) (k : List Char) (v : PyVal) : PyDict :=
  if d.any (fun q => decide (q.1 = k)) then
    d.map (fun q => if q.1 = k then (k, v) else q)
  else d ++ [(k, v)]

/-- Key `'imagem_origem'` written by `convert_structured_data_to_csv`. -/
def imagemOrigemKey : List Char := "imagem_origem".data

/-- Key `'data_extracao'` written by `convert_structured_data_to_csv`. -/
def dataExtracaoKey : List Char := "data_extracao".data

/-- Metadata mutation applied to one record by
`CSVConverter.convert_structured_data_to_csv` (src/csv_converter.py
lines 76-78): `item['imagem_origem'] = image_name;
item['data_extracao'] = <timestamp>`. -/
def addMetadata (img ts : List Char) (item : PyDict) : PyDict :=
  dictSet (dictSet item imagemOrigemKey (PyVal.strV img)) dataExtracaoKey (PyVal.strV ts)

/-- Rows of the frame built by
`CSVConverter.convert_structured_data_to_csv` (src/csv_converter.py
lines 63-87): every caller-supplied record after the in-place metadata
mutation. -/
def convert_structured_data_to_csv_rows (data : List PyDict) (img ts : List Char) : List PyDict :=
  data.map (addMetadata img ts)

/-- Outcome of `ImageTextExtractor.process_image`
(src/main.py lines 122-174): whether the no-text warning was printed,
which files were written, and the returned boolean. -/
structure ProcessResult where
  reportedNoText : Bool
  csvFile : Option CsvFile
  summary : Option SummaryRow
  success : Bool
deriving DecidableEq

/-- Model of `ImageTextExtractor.process_image` (src/main.py
lines 122-174) after OCR returned `extractedText`:
`if not extracted_text.strip()` print the warning and return `False`
without exporting; otherwise write the tabular file and the summary and
return `True`.  `csvBase` stands for the derived csv file name and `ts`
for the timestamp (path derivation and clock are external). -/
def process_image (imageName extractedText csvBase ts : List Char) : ProcessResult :=
  if (pyStrip extractedText).isEmpty then
    ⟨true, none, none, false⟩
  else
    ⟨false,
     some (convert_text_to_csv_file extractedText imageName ts),
     some (create_summary_csv_row imageName extractedText csvBase ts),
     true⟩

/-- Errors observable in the Python code's failure paths.
`generic` is `raise Exception(...)`; `cvError` is an error raised inside
the cv2 library; `imageLoadError` is the distinguishable image-load
error kind named by the specification's taxonomy (no code path raises
it). -/
inductive PyError where
  | generic (msg : List Char)
  | cvError (msg : List Char)
  | imageLoadError (msg : List Char)
deriving DecidableEq

/-- Message of an error, Python `str(e)`. -/
def pyErrorMsg : PyError → List Char
  | PyError.generic m => m
  | PyError.cvError m => m
  | PyError.imageLoadError m => m

/-- Model of the message of the error cv2 raises when `cv2.cvtColor` is
applied to the `None` that `cv2.imread` returns for a path that does not
resolve to a decodable image (external library message, abstracted). -/
def cvtColorEmptySrcMsg : List Char :=
  "OpenCV assertion failed: src is empty in function cvtColor".data

/-- Model of `OCRProcessor.preprocess_image` (src/ocr_processor.py
lines 57-79) over an abstract image type `α`: `cv2.imread` returns
`none` for a non-decodable path (it does not raise), after which
`cv2.cvtColor` raises a cv2 error; for a decoded image the fixed
grayscale / blur / threshold pipeline (abstracted) succeeds. -/
def preprocess_image (α : Type) (imread : Option α) : Except PyError α :=
  match imread with
  | none => Except.error (PyError.cvError cvtColorEmptySrcMsg)
  | some img => Except.ok img

/-- Model of `OCRProcessor.extract_text` (src/ocr_processor.py
lines 81-105): any exception raised while preprocessing or recognising
is caught and re-raised as `Exception('Erro ao processar a imagem: '
+ str(e))`; on success the engine's output is stripped.  `ocr` stands
for the external OCR engine. -/
def extract_text_result (α : Type) (imread : Option α) (ocr : α → List Char) :
    Except PyError (List Char) :=
  match preprocess_image α imread with
  | Except.error e =>
      Except.error (PyError.generic ("Erro ao processar a imagem: ".data ++ pyErrorMsg e))
  | Except.ok img => Except.ok (pyStrip (ocr img))

/-- Whether a result failed with the distinguishable image-load kind. -/
def failedWithImageLoad (β : Type) : Except PyError β → Bool
  | Except.error (PyError.imageLoadError _) => true
  | _ => false

/-- Python `str.lower()` restricted to ASCII case folding. -/
def pyLower (s : List Char) : List Char :=
  s.map Char.toLower

/-- The `'.csv'` literal of `Application.get_csv_files`
(src/ai_application.py line 37). -/
def csvExt : List Char := ".csv".data

/-- Selection filter of `Application.get_csv_files`
(src/ai_application.py line 37):
`file.lower().endswith('.csv') and not file.startswith('resumo_')`. -/
def selectableCsvName (n : List Char) : Bool :=
  csvExt.isSuffixOf (pyLower n) && !("resumo_".data.isPrefixOf n)

/-- Observable outcome of one call to `Application.correct_csv_text`
(src/ai_application.py lines 115-165): the error message reported by
the `except` branch (if any), the persisted corrected-text file as a
(name, contents) pair (if any), and the returned boolean. -/
structure CorrectCsvResult where
  errorReported : Option (List Char)
  persisted : Option (List Char × List Char)
  success : Bool
deriving DecidableEq

/-- Message of the exception `correct_csv_text` reports: line 131 calls
`self.csv_converter.read_csv_content(csv_path)`, but `CSVConverter`
(src/csv_converter.py) defines no `read_csv_content` method anywhere in
the repository, so Python raises
AttributeError ("CSVConverter object has no attribute
read_csv_content"; the quoting of the Python message is elided), and
the handler prints `'Erro ao corrigir o texto: ' + str(e)`. -/
def missingReadMethodMsg : List Char :=
  "Erro ao corrigir o texto: AttributeError: CSVConverter object has no attribute read_csv_content".data

/-- Model of `Application.correct_csv_text` (src/ai_application.py
lines 115-165).  The `try` block fails at its first statement: the
`read_csv_content` attribute lookup on `CSVConverter` raises
`AttributeError` for every file name, the `except` at line 163 prints
the error message and the function returns `False`.  The AI call at
line 145 and the persist step at lines 152-159 (which would have saved
under `('corrigido_' + csv_filename).replace('.csv', '.txt')`) are
unreachable, so no file is ever written. -/
def correct_csv_text (_csvFilename : List Char) : CorrectCsvResult :=
  { errorReported := some missingReadMethodMsg
    persisted := none
    success := false }

/-- Mapping a function that fixes every member is the identity. -/
theorem listMapEqSelfOfMem {α : Type} {f : α → α} :
    ∀ l : List α, (∀ x ∈ l, f x = x) → l.map f = l := by
  intro l
  induction l with
  | nil => intro _; rfl
  | cons a t ih =>
    intro h
    simp only [List.map_cons]
    rw [h a (by simp), ih (fun x hx => h x (by simp [hx]))]

/-- Filtering by a predicate every member satisfies is the identity. -/
theorem listFilterEqSelfOfMem {α : Type} {p : α → Bool} :
    ∀ l : List α, (∀ x ∈ l, p x = true) → l.filter p = l := by
  intro l
  induction l with
  | nil => intro _; rfl
  | cons a t ih =>
    intro h
    rw [List.filter_cons, if_pos (h a (by simp)), ih (fun x hx => h x (by simp [hx]))]

/-- Dropping the members a filter removes does not change a sum whose
summand vanishes on them. -/
theorem listSumMapFilter {α : Type} {p : α → Bool} {f : α → Nat} :
    ∀ l : List α, (∀ x ∈ l, p x = false → f x = 0) →
      ((l.filter p).map f).sum = (l.map f).sum := by
  intro l
  induction l with
  | nil => intro _; rfl
  | cons a t ih =>
    intro h
    have ht := ih (fun x hx hpx => h x (by simp [hx]) hpx)
    rw [List.filter_cons]
    by_cases hp : p a = true
    · rw [if_pos hp]; simp [ht]
    · have hp0 : p a = false := by
        cases hpa : p a
        · rfl
        · exact absurd hpa hp
      rw [if_neg hp]
      simp [ht, h a (by simp) hp0]

/-- Length of Python `split()` in terms of the word-counting fold: the
pending chunk `acc` contributes one extra chunk when non-empty. -/
theorem pySplitWs_length :
    ∀ (s acc : List Char),
      (pySplitWs s acc).length =
        countWordsAux s (!acc.isEmpty) + (if acc.isEmpty then 0 else 1) := by
  intro s
  induction s with
  | nil =>
    intro acc
    cases acc <;> simp [pySplitWs, countWordsAux]
  | cons c rest ih =>
    intro acc
    cases hc : isPySpace c with
    | true =>
      cases acc with
      | nil => simp [pySplitWs, countWordsAux, hc, ih]
      | cons a as => simp [pySplitWs, countWordsAux, hc, ih, Nat.add_comm]
    | false =>
      cases acc with
      | nil => simp [pySplitWs, countWordsAux, hc, ih, Nat.add_comm]
      | cons a as => simp [pySplitWs, countWordsAux, hc, ih, Nat.add_comm]

/-- The number of words of `text.split()` equals the word-counting fold. -/
theorem pySplitWs_length_eq_countWords (s : List Char) :
    (pySplitWs s []).length = countWords s := by
  rw [pySplitWs_length, countWords]
  simp

/-- Splitting the scan at a whitespace character splits the word count. -/
theorem countWordsAux_ws_append {c : Char} (hc : isPySpace c = true) (b : List Char) :
    ∀ (a : List Char) (st : Bool),
      countWordsAux (a ++ c :: b) st = countWordsAux a st + countWordsAux b false := by
  intro a
  induction a with
  | nil => intro st; simp [countWordsAux, hc]
  | cons x t ih =>
    intro st
    cases hx : isPySpace x with
    | true => simp [countWordsAux, hx, ih]
    | false => simp [countWordsAux, hx, ih, Nat.add_assoc]

/-- Newline is whitespace. -/
theorem isPySpace_nl : isPySpace '\n' = true := by decide

/-- Summing the word counts of the newline-split chunks recovers the
word count of the whole scanned text. -/
theorem sum_countWords_splitNl :
    ∀ (s acc : List Char),
      ((splitNl s acc).map countWords).sum = countWords (acc.reverse ++ s) := by
  intro s
  induction s with
  | nil => intro acc; simp [splitNl]
  | cons c rest ih =>
    intro acc
    by_cases hc : c = '\n'
    · subst hc
      have hsplit : splitNl ('\n' :: rest) acc = acc.reverse :: splitNl rest [] := by
        simp [splitNl]
      have h2 : countWords (acc.reverse ++ '\n' :: rest) =
          countWords acc.reverse + countWords rest :=
        countWordsAux_ws_append isPySpace_nl rest acc.reverse false
      rw [hsplit, List.map_cons, List.sum_cons, ih [], h2]
      simp
    · have hsplit : splitNl (c :: rest) acc = splitNl rest (c :: acc) := by
        simp [splitNl, hc]
      rw [hsplit, ih (c :: acc)]
      simp

/-- Chunks produced by the newline split contain no newline. -/
theorem splitNl_no_nl :
    ∀ (s acc : List Char), '\n' ∉ acc →
      ∀ l ∈ splitNl s acc, '\n' ∉ l := by
  intro s
  induction s with
  | nil =>
    intro acc hacc l hl
    simp only [splitNl, List.mem_singleton] at hl
    subst hl
    simpa using hacc
  | cons c rest ih =>
    intro acc hacc l hl
    by_cases hc : c = '\n'
    · subst hc
      have hsplit : splitNl ('\n' :: rest) acc = acc.reverse :: splitNl rest [] := by
        simp [splitNl]
      rw [hsplit] at hl
      rcases List.mem_cons.mp hl with h | h
      · subst h; simpa using hacc
      · exact ih [] (by simp) l h
    · have hsplit : splitNl (c :: rest) acc = splitNl rest (c :: acc) := by
        simp [splitNl, hc]
      rw [hsplit] at hl
      refine ih (c :: acc) ?_ l hl
      intro hmem
      rcases List.mem_cons.mp hmem with h | h
      · exact hc h.symm
      · exact hacc h

/-- Scanning a newline-free chunk just moves it into the accumulator. -/
theorem splitNl_append (s : List Char) :
    ∀ (l acc : List Char), '\n' ∉ l →
      splitNl (l ++ s) acc = splitNl s (l.reverse ++ acc) := by
  intro l
  induction l with
  | nil => intro acc _; simp
  | cons c t ih =>
    intro acc hl
    have hc : ¬ c = '\n' := by
      intro h; exact hl (by simp [h])
    have ht : '\n' ∉ t := fun h => hl (by simp [h])
    have hstep : splitNl ((c :: t) ++ s) acc = splitNl (t ++ s) (c :: acc) := by
      simp [splitNl, hc]
    rw [hstep, ih (c :: acc) ht]
    simp

/-- Splitting the rejoined lines recovers them, provided the list is
non-empty and no line contains a newline. -/
theorem splitNl_joinLines :
    ∀ ls : List (List Char), ls ≠ [] → (∀ l ∈ ls, '\n' ∉ l) →
      splitNl (joinLines ls) [] = ls := by
  intro ls
  induction ls with
  | nil => intro h; exact absurd rfl h
  | cons l ls' ih =>
    intro _ hn
    cases ls' with
    | nil =>
      have hl : '\n' ∉ l := hn l (by simp)
      have := splitNl_append [] l [] hl
      simpa [joinLines, splitNl] using this
    | cons l' ls'' =>
      have hl : '\n' ∉ l := hn l (by simp)
      have hrest : ∀ x ∈ l' :: ls'', '\n' ∉ x := by
        intro x hx; exact hn x (by simp [hx])
      have hjoin : joinLines (l :: l' :: ls'') = l ++ '\n' :: joinLines (l' :: ls'') := by
        rfl
      rw [hjoin, splitNl_append ('\n' :: joinLines (l' :: ls'')) l [] hl]
      have hsplit : splitNl ('\n' :: joinLines (l' :: ls'')) (l.reverse ++ []) =
          (l.reverse ++ []).reverse :: splitNl (joinLines (l' :: ls'')) [] := by
        simp [splitNl]
      rw [hsplit, ih (by simp) hrest]
      simp

/-- A wholly-whitespace string has no words, whatever the scan state. -/
theorem countWordsAux_all_space :
    ∀ u : List Char, (∀ c ∈ u, isPySpace c = true) → ∀ st, countWordsAux u st = 0 := by
  intro u
  induction u with
  | nil => intro _ _; rfl
  | cons c t ih =>
    intro h st
    have hc : isPySpace c = true := h c (by simp)
    simp only [countWordsAux, if_pos hc]
    exact ih (fun x hx => h x (by simp [hx])) false

/-- Appending trailing whitespace does not change the word count. -/
theorem countWordsAux_append_all_space {u : List Char}
    (hu : ∀ c ∈ u, isPySpace c = true) :
    ∀ (t : List Char) (st : Bool), countWordsAux (t ++ u) st = countWordsAux t st := by
  intro t
  induction t with
  | nil =>
    intro st
    simpa [countWordsAux] using countWordsAux_all_space u hu st
  | cons x r ih =>
    intro st
    cases hx : isPySpace x with
    | true => simp [countWordsAux, hx, ih]
    | false => simp [countWordsAux, hx, ih]

/-- Leading whitespace does not change the word count. -/
theorem countWordsAux_dropWhile :
    ∀ s : List Char, countWordsAux (s.dropWhile isPySpace) false = countWordsAux s false := by
  intro s
  induction s with
  | nil => rfl
  | cons c t ih =>
    cases hc : isPySpace c with
    | true => simp [List.dropWhile_cons, hc, ih, countWordsAux]
    | false => simp [List.dropWhile_cons, hc]

/-- Stripping does not change the word count. -/
theorem countWords_pyStrip (s : List Char) : countWords (pyStrip s) = countWords s := by
  have hd : countWords (s.dropWhile isPySpace) = countWords s :=
    countWordsAux_dropWhile s
  have hsplit :
      s.dropWhile isPySpace =
        pyStrip s ++ ((s.dropWhile isPySpace).reverse.takeWhile isPySpace).reverse := by
    have h0 :
        (s.dropWhile isPySpace).reverse.takeWhile isPySpace ++
          (s.dropWhile isPySpace).reverse.dropWhile isPySpace =
          (s.dropWhile isPySpace).reverse :=
      List.takeWhile_append_dropWhile isPySpace _
    have h1 := congrArg List.reverse h0
    rw [List.reverse_append, List.reverse_reverse] at h1
    exact h1.symm
  have hsp : ∀ c ∈ ((s.dropWhile isPySpace).reverse.takeWhile isPySpace).reverse,
      isPySpace c = true := by
    intro c hc
    exact List.mem_takeWhile_imp (List.mem_reverse.mp hc)
  calc countWords (pyStrip s)
      = countWords (pyStrip s ++
          ((s.dropWhile isPySpace).reverse.takeWhile isPySpace).reverse) :=
        (countWordsAux_append_all_space hsp (pyStrip s) false).symm
    _ = countWords (s.dropWhile isPySpace) := by rw [← hsplit]
    _ = countWords s := hd

/-- The head a `dropWhile` exposes does not satisfy the predicate. -/
theorem dropWhileHeadFalse {α : Type} {p : α → Bool} :
    ∀ (s : List α) (c : α) (t : List α), s.dropWhile p = c :: t → p c = false := by
  intro s
  induction s with
  | nil => intro c t h; simp [List.dropWhile] at h
  | cons a r ih =>
    intro c t h
    cases ha : p a with
    | true =>
      rw [List.dropWhile_cons, if_pos ha] at h
      exact ih c t h
    | false =>
      rw [List.dropWhile_cons, if_neg (by simp [ha])] at h
      cases h
      exact ha

/-- `dropWhile` produces a suffix. -/
theorem dropWhileIsSuffix {α : Type} {p : α → Bool} :
    ∀ s : List α, ∃ u, u ++ s.dropWhile p = s := by
  intro s
  induction s with
  | nil => exact ⟨[], rfl⟩
  | cons a r ih =>
    cases ha : p a with
    | true =>
      obtain ⟨u, hu⟩ := ih
      exact ⟨a :: u, by rw [List.dropWhile_cons, if_pos ha]; simpa using hu⟩
    | false =>
      exact ⟨[], by rw [List.dropWhile_cons, if_neg (by simp [ha])]; rfl⟩

/-- `dropWhile` is idempotent. -/
theorem dropWhileIdem {α : Type} {p : α → Bool} (s : List α) :
    (s.dropWhile p).dropWhile p = s.dropWhile p := by
  cases h : s.dropWhile p with
  | nil => rfl
  | cons c t =>
    rw [List.dropWhile_cons, if_neg (by simp [dropWhileHeadFalse s c t h])]

/-- The stripped string is a prefix of the left-stripped string. -/
theorem pyStripPrefixDrop (s : List Char) :
    ∃ w, pyStrip s ++ w = s.dropWhile isPySpace := by
  obtain ⟨u, hu⟩ := dropWhileIsSuffix (p := isPySpace) (s.dropWhile isPySpace).reverse
  refine ⟨u.reverse, ?_⟩
  have := congrArg List.reverse hu
  simpa [pyStrip, List.reverse_append] using this

/-- Stripping is idempotent. -/
theorem pyStrip_idem (s : List Char) : pyStrip (pyStrip s) = pyStrip s := by
  have hleft : (pyStrip s).dropWhile isPySpace = pyStrip s := by
    cases h : pyStrip s with
    | nil => rfl
    | cons c t =>
      obtain ⟨w, hw⟩ := pyStripPrefixDrop s
      rw [h] at hw
      have hc : isPySpace c = false :=
        dropWhileHeadFalse s c (t ++ w) (by rw [← hw]; simp)
      rw [List.dropWhile_cons, if_neg (by simp [hc])]
  show ((((pyStrip s).dropWhile isPySpace).reverse).dropWhile isPySpace).reverse = pyStrip s
  rw [hleft]
  have hrev : (pyStrip s).reverse =
      ((s.dropWhile isPySpace).reverse).dropWhile isPySpace := by
    simp [pyStrip]
  rw [hrev, dropWhileIdem, ← hrev]
  simp

/-- Stripping only removes characters. -/
theorem mem_pyStrip {c : Char} {s : List Char} (h : c ∈ pyStrip s) : c ∈ s := by
  obtain ⟨w, hw⟩ := pyStripPrefixDrop s
  obtain ⟨u, hu⟩ := dropWhileIsSuffix (p := isPySpace) s
  have h1 : c ∈ s.dropWhile isPySpace := by
    rw [← hw]; exact List.mem_append.mpr (Or.inl h)
  rw [← hu]
  exact List.mem_append.mpr (Or.inr h1)

/-- An all-whitespace string strips to the empty string. -/
theorem pyStrip_all_space {s : List Char} (h : ∀ c ∈ s, isPySpace c = true) :
    pyStrip s = [] := by
  have hdrop : s.dropWhile isPySpace = [] := by
    induction s with
    | nil => rfl
    | cons a r ih =>
      rw [List.dropWhile_cons, if_pos (h a (by simp))]
      exact ih fun x hx => h x (by simp [hx])
  simp [pyStrip, hdrop]

/-- Every processed line is already stripped, non-empty and
newline-free. -/
theorem processLines_mem {text l : List Char} (h : l ∈ processLines text) :
    pyStrip l = l ∧ l ≠ [] ∧ '\n' ∉ l := by
  have hf := List.mem_filter.mp h
  obtain ⟨x, hx, hxl⟩ := List.mem_map.mp hf.1
  have hne : l ≠ [] := by
    intro hnil
    rw [hnil] at hf
    simp at hf
  refine ⟨?_, hne, ?_⟩
  · rw [← hxl]; exact pyStrip_idem x
  · intro hmem
    have hxnl : '\n' ∉ x := splitNl_no_nl text [] (by simp) x hx
    rw [← hxl] at hmem
    exact hxnl (mem_pyStrip hmem)

/-- Length of the rows built by the structured-extraction loop. -/
theorem buildStructuredRows_length :
    ∀ (ls : List (List Char)) (k : Nat), (buildStructuredRows ls k).length = ls.length := by
  intro ls
  induction ls with
  | nil => intro k; rfl
  | cons l t ih => intro k; simp [buildStructuredRows, ih]

/-- Shape of the `i`-th row built by the structured-extraction loop. -/
theorem buildStructuredRows_get? :
    ∀ (ls : List (List Char)) (k i : Nat),
      (buildStructuredRows ls k).get? i =
        (ls.get? i).map (fun l =>
          ⟨k + i, l, (pySplitWs l []).length, l.length⟩ : List Char → StructuredRow) := by
  intro ls
  induction ls with
  | nil => intro k i; cases i <;> rfl
  | cons l t ih =>
    intro k i
    cases i with
    | zero => simp [buildStructuredRows]
    | succ j =>
      have := ih (k + 1) j
      simp only [buildStructuredRows, List.get?_cons_succ, this]
      have harith : k + 1 + j = k + (j + 1) := by omega
      rw [harith]

/-- Length of the rows built by the tabular-export loop. -/
theorem buildCsvRows_length :
    ∀ (ls : List (List Char)) (k : Nat) (img ts : List Char),
      (buildCsvRows ls k img ts).length = ls.length := by
  intro ls
  induction ls with
  | nil => intro k img ts; rfl
  | cons l t ih => intro k img ts; simp [buildCsvRows, ih]

/-- Shape of the `i`-th row built by the tabular-export loop. -/
theorem buildCsvRows_get? :
    ∀ (ls : List (List Char)) (k i : Nat) (img ts : List Char),
      (buildCsvRows ls k img ts).get? i =
        (ls.get? i).map (fun l =>
          ⟨k + i, l, (pySplitWs l []).length, l.length, img, ts⟩ : List Char → CsvRow) := by
  intro ls
  induction ls with
  | nil => intro k i img ts; cases i <;> rfl
  | cons l t ih =>
    intro k i img ts
    cases i with
    | zero => simp [buildCsvRows]
    | succ j =>
      have := ih (k + 1) j img ts
      simp only [buildCsvRows, List.get?_cons_succ, this]
      have harith : k + 1 + j = k + (j + 1) := by omega
      rw [harith]

/-- The word-count column of the built rows. -/
theorem buildCsvRows_map_palavras :
    ∀ (ls : List (List Char)) (k : Nat) (img ts : List Char),
      (buildCsvRows ls k img ts).map CsvRow.palavras =
        ls.map (fun l => (pySplitWs l []).length) := by
  intro ls
  induction ls with
  | nil => intro k img ts; rfl
  | cons l t ih => intro k img ts; simp [buildCsvRows, ih]

/-- The character-count column of the built rows. -/
theorem buildCsvRows_map_caracteres :
    ∀ (ls : List (List Char)) (k : Nat) (img ts : List Char),
      (buildCsvRows ls k img ts).map CsvRow.caracteres =
        ls.map List.length := by
  intro ls
  induction ls with
  | nil => intro k img ts; rfl
  | cons l t ih => intro k img ts; simp [buildCsvRows, ih]

/-- The content column of the structured rows. -/
theorem buildStructuredRows_map_conteudo :
    ∀ (ls : List (List Char)) (k : Nat),
      (buildStructuredRows ls k).map StructuredRow.conteudo = ls := by
  intro ls
  induction ls with
  | nil => intro k; rfl
  | cons l t ih => intro k; simp [buildStructuredRows, ih]

/-- Pointwise-equal functions map lists equally. -/
theorem listMapCongrMem {α β : Type} {f g : α → β} :
    ∀ l : List α, (∀ x ∈ l, f x = g x) → l.map f = l.map g := by
  intro l
  induction l with
  | nil => intro _; rfl
  | cons a t ih =>
    intro h
    simp only [List.map_cons]
    rw [h a (by simp), ih (fun x hx => h x (by simp [hx]))]

/-- Filtering the mapped strips by non-emptiness keeps as many elements
as filtering the raw lines by non-blankness. -/
theorem filterMapStripLength :
    ∀ xs : List (List Char),
      ((xs.map pyStrip).filter (fun l => !l.isEmpty)).length =
        (xs.filter (fun l => !(pyStrip l).isEmpty)).length := by
  intro xs
  induction xs with
  | nil => rfl
  | cons a t ih =>
    simp only [List.map_cons, List.filter_cons]
    cases ha : (pyStrip a).isEmpty <;> simp [ha, ih]

/-- The row count of the tabular exporter equals the number of
non-blank input lines. -/
theorem processLines_length_eq_nonblank (text : List Char) :
    (processLines text).length =
      ((splitNl text []).filter (fun l => !(pyStrip l).isEmpty)).length := by
  rw [processLines]
  exact filterMapStripLength (splitNl text [])

/-- The total word count of the whole text equals the sum of the
per-row word counts of the tabular rows built from it. -/
theorem summary_words_eq_row_sum (text img ts : List Char) :
    (pySplitWs text []).length =
      ((convert_text_to_csv_rows text img ts).map CsvRow.palavras).sum := by
  rw [pySplitWs_length_eq_countWords, convert_text_to_csv_rows, buildCsvRows_map_palavras]
  have hfun : (fun l : List Char => (pySplitWs l []).length) = countWords := by
    funext l
    exact pySplitWs_length_eq_countWords l
  rw [hfun, processLines]
  rw [listSumMapFilter ((splitNl text []).map pyStrip) ?hzero]
  case hzero =>
    intro x _ hx
    cases x with
    | nil => rfl
    | cons a t => simp at hx
  rw [List.map_map]
  have hcomp : countWords ∘ pyStrip = countWords := by
    funext l
    exact countWords_pyStrip l
  rw [hcomp]
  have := sum_countWords_splitNl text []
  simp only [List.reverse_nil, List.nil_append] at this
  exact this.symm

/-- Assigning an absent key appends it at the end of the dict. -/
theorem dictSet_append {d : PyDict} {k : List Char} {v : PyVal}
    (h : ∀ q ∈ d, q.1 ≠ k) : dictSet d k v = d ++ [(k, v)] := by
  have hany : ¬ (d.any (fun q => decide (q.1 = k)) = true) := by
    rw [List.any_eq_true]
    rintro ⟨q, hq, hqk⟩
    exact h q hq (of_decide_eq_true hqk)
  rw [dictSet, if_neg hany]

/-- When neither metadata key is present, the mutation of
`convert_structured_data_to_csv` appends exactly the two metadata
fields. -/
theorem addMetadata_append {item : PyDict} {img ts : List Char}
    (h : ∀ q ∈ item, q.1 ≠ imagemOrigemKey ∧ q.1 ≠ dataExtracaoKey) :
    addMetadata img ts item =
      item ++ [(imagemOrigemKey, PyVal.strV img), (dataExtracaoKey, PyVal.strV ts)] := by
  rw [addMetadata, dictSet_append (fun q hq => (h q hq).1),
    dictSet_append ?hsecond, List.append_assoc]
  · rfl
  case hsecond =>
    intro q hq
    rcases List.mem_append.mp hq with h1 | h1
    · exact (h q h1).2
    · have : q = (imagemOrigemKey, PyVal.strV img) := by simpa using h1
      rw [this]
      show imagemOrigemKey ≠ dataExtracaoKey
      decide

/-- C1: for every raw OCR output string, the extracted document is the
split-trim-discard line sequence, and the `i`-th retained line (both in
`extract_data_structured` and in the tabular exporter's rows) carries
the 1-based sequential index `i + 1`, the whitespace-token word count
and the length of the trimmed line. -/
theorem c1_extracted_document_rows (text img ts : List Char) (i : Nat) :
    (extract_data_structured text).map StructuredRow.conteudo = processLines text ∧
    (extract_data_structured text).get? i =
      ((processLines text).get? i).map
        (fun l => (⟨i + 1, l, (pySplitWs l []).length, l.length⟩ : StructuredRow)) ∧
    (convert_text_to_csv_rows text img ts).get? i =
      ((processLines text).get? i).map
        (fun l => (⟨i + 1, l, (pySplitWs l []).length, l.length, img, ts⟩ : CsvRow)) := by
  refine ⟨buildStructuredRows_map_conteudo _ 1, ?_, ?_⟩
  · rw [extract_data_structured, buildStructuredRows_get?]
    simp only [show 1 + i = i + 1 from Nat.add_comm 1 i]
  · rw [convert_text_to_csv_rows, buildCsvRows_get?]
    simp only [show 1 + i = i + 1 from Nat.add_comm 1 i]

/-- C2 (counterexample): for the empty input text the generated file has
zero data rows, but its header line is empty rather than the six-column
header row, because the frame built from an empty record list has no
columns. -/
theorem c2_counterexample :
    (convert_text_to_csv_file [] "img.png".data "2025-09-16 12:00:00".data).dataRows = [] ∧
    (convert_text_to_csv_file [] "img.png".data "2025-09-16 12:00:00".data).header = [] ∧
    (convert_text_to_csv_file [] "img.png".data "2025-09-16 12:00:00".data).header ≠
      csvHeader := by
  refine ⟨rfl, rfl, by decide⟩

/-- C2 (amended): the number of data rows always equals the number of
non-blank input lines, and the header line is the six-column header
exactly when there is at least one non-blank line; an all-blank or
empty input yields zero data rows and an empty header line. -/
theorem c2_amended_row_count_and_header (text img ts : List Char) :
    (convert_text_to_csv_file text img ts).dataRows.length =
      ((splitNl text []).filter (fun l => !(pyStrip l).isEmpty)).length ∧
    (convert_text_to_csv_file text img ts).header =
      (if ((splitNl text []).filter (fun l => !(pyStrip l).isEmpty)).length = 0 then []
       else csvHeader) := by
  have hlen : (convert_text_to_csv_rows text img ts).length =
      ((splitNl text []).filter (fun l => !(pyStrip l).isEmpty)).length := by
    rw [convert_text_to_csv_rows, buildCsvRows_length]
    exact processLines_length_eq_nonblank text
  constructor
  · exact hlen
  · show (if (convert_text_to_csv_rows text img ts).isEmpty then [] else csvHeader) = _
    rw [← hlen]
    cases hrows : convert_text_to_csv_rows text img ts with
    | nil => simp
    | cons r rs => simp

/-- C3: the total-word-count field of the summary record (the whole
text split on whitespace) equals the sum of the per-row word counts of
the tabular rows generated from the same text. -/
theorem c3_summary_word_total_eq_row_sum (text img ts imgS outBase tsS : List Char) :
    (create_summary_csv_row imgS text outBase tsS).totalPalavras =
      ((convert_text_to_csv_rows text img ts).map CsvRow.palavras).sum :=
  summary_words_eq_row_sum text img ts

/-- C4: the split-trim-discard operation is idempotent — rejoining the
processed lines with line breaks and processing again yields the same
sequence of lines. -/
theorem c4_line_splitting_idempotent (text : List Char) :
    processLines (joinLines (processLines text)) = processLines text := by
  by_cases h : processLines text = []
  · rw [h]
    decide
  · have hnl : ∀ l ∈ processLines text, '\n' ∉ l :=
      fun l hl => (processLines_mem hl).2.2
    show ((splitNl (joinLines (processLines text)) []).map pyStrip).filter
        (fun l => !l.isEmpty) = processLines text
    rw [splitNl_joinLines _ h hnl,
      listMapEqSelfOfMem _ (fun x hx => (processLines_mem hx).1)]
    refine listFilterEqSelfOfMem _ (fun x hx => ?_)
    have hne : x ≠ [] := (processLines_mem hx).2.1
    cases x with
    | nil => exact absurd rfl hne
    | cons a t => rfl

/-- C5: the request payload sent to the remote model is exactly the
fixed instructional template with the caller's text interpolated, so
the caller's text occurs verbatim as a substring and the wrapper is
the fixed template. -/
theorem c5_prompt_contains_caller_text (text : List Char) :
    correct_text_payload text = promptIntro ++ text ++ promptOutro ∧
    text <:+: correct_text_payload text := by
  refine ⟨rfl, ⟨promptIntro, promptOutro, ?_⟩⟩
  rfl

/-- C6 (counterexample): a caller record that already contains the
`imagem_origem` field has that caller-supplied field overwritten by the
structured exporter, so the claim fails for such record lists. -/
theorem c6_counterexample :
    convert_structured_data_to_csv_rows
        [[(imagemOrigemKey, PyVal.strV "antigo.png".data)]]
        "novo.png".data "2025-09-16 12:00:00".data =
      [[(imagemOrigemKey, PyVal.strV "novo.png".data),
        (dataExtracaoKey, PyVal.strV "2025-09-16 12:00:00".data)]] ∧
    (imagemOrigemKey, PyVal.strV "antigo.png".data) ∉
      [(imagemOrigemKey, PyVal.strV "novo.png".data),
       (dataExtracaoKey, PyVal.strV "2025-09-16 12:00:00".data)] := by
  refine ⟨by decide, by decide⟩

/-- C6 (amended): for every list of caller records in which no record
already contains the `imagem_origem` or `data_extracao` key, the
structured exporter appends exactly those two metadata fields to each
record and leaves every caller-supplied field unchanged. -/
theorem c6_amended_metadata_appended (data : List PyDict) (img ts : List Char)
    (h : ∀ item ∈ data, ∀ q ∈ item,
      q.1 ≠ imagemOrigemKey ∧ q.1 ≠ dataExtracaoKey) :
    convert_structured_data_to_csv_rows data img ts =
      data.map (fun item =>
        item ++ [(imagemOrigemKey, PyVal.strV img), (dataExtracaoKey, PyVal.strV ts)]) := by
  rw [convert_structured_data_to_csv_rows]
  exact listMapCongrMem data (fun item hitem => addMetadata_append (h item hitem))

/-- Witness for the amended C6 at a concrete record list. -/
theorem c6_amended_metadata_appended_witness :
    (∀ item ∈ [[("linha".data, PyVal.intV 1),
                ("conteudo".data, PyVal.strV "ola mundo".data)]],
       ∀ q ∈ item, q.1 ≠ imagemOrigemKey ∧ q.1 ≠ dataExtracaoKey) ∧
    convert_structured_data_to_csv_rows
        [[("linha".data, PyVal.intV 1),
          ("conteudo".data, PyVal.strV "ola mundo".data)]]
        "foto.png".data "2025-09-16 12:00:00".data =
      [[("linha".data, PyVal.intV 1),
        ("conteudo".data, PyVal.strV "ola mundo".data)]].map
        (fun item => item ++ [(imagemOrigemKey, PyVal.strV "foto.png".data),
                              (dataExtracaoKey,
                               PyVal.strV "2025-09-16 12:00:00".data)]) :=
  ⟨by decide,
   c6_amended_metadata_appended
     [[("linha".data, PyVal.intV 1),
       ("conteudo".data, PyVal.strV "ola mundo".data)]]
     "foto.png".data "2025-09-16 12:00:00".data (by decide)⟩

/-- C7: when the OCR result is empty or consists only of whitespace,
the workflow reports that no text was found, writes neither the tabular
file nor the summary file, and returns an unsuccessful result. -/
theorem c7_blank_ocr_no_export (imageName extractedText csvBase ts : List Char)
    (h : ∀ c ∈ extractedText, isPySpace c = true) :
    process_image imageName extractedText csvBase ts = ⟨true, none, none, false⟩ := by
  have hs : pyStrip extractedText = [] := pyStrip_all_space h
  show (if (pyStrip extractedText).isEmpty then
          (⟨true, none, none, false⟩ : ProcessResult)
        else ⟨false, some (convert_text_to_csv_file extractedText imageName ts),
              some (create_summary_csv_row imageName extractedText csvBase ts),
              true⟩) = ⟨true, none, none, false⟩
  rw [hs]
  rfl

/-- Witness for C7 at a concrete whitespace-only OCR result. -/
theorem c7_blank_ocr_no_export_witness :
    (∀ c ∈ ("  \n ".data), isPySpace c = true) ∧
    process_image "foto.png".data "  \n ".data "texto_foto.csv".data
        "2025-09-16 12:00:00".data = ⟨true, none, none, false⟩ :=
  ⟨by decide,
   c7_blank_ocr_no_export "foto.png".data "  \n ".data "texto_foto.csv".data
     "2025-09-16 12:00:00".data (by decide)⟩

/-- C8 (counterexample): for a path that does not resolve to a
decodable image the preprocessor fails, but the failure is the cv2
library's empty-source error, not a distinguishable image-load error
kind. -/
theorem c8_counterexample :
    preprocess_image Unit none = Except.error (PyError.cvError cvtColorEmptySrcMsg) ∧
    failedWithImageLoad Unit (preprocess_image Unit none) = false :=
  ⟨rfl, rfl⟩

/-- C8 (amended): for every non-decodable input the preprocessor fails
with the cv2 empty-source error — never with the image-load kind — and
`extract_text` wraps it into a generic exception whose message prefixes
the cv2 message; no distinguishable `ImageLoadError` exists in the
code. -/
theorem c8_amended_wrapped_generic_error (α : Type) (ocr : α → List Char) :
    preprocess_image α none = Except.error (PyError.cvError cvtColorEmptySrcMsg) ∧
    failedWithImageLoad α (preprocess_image α none) = false ∧
    extract_text_result α none ocr =
      Except.error (PyError.generic
        ("Erro ao processar a imagem: ".data ++ cvtColorEmptySrcMsg)) :=
  ⟨rfl, rfl, rfl⟩

/-- C9: the correction workflow never persists anything.  For every
selected tabular file name — the picker-selectable `texto_doc.csv`
included — `correct_csv_text` raises `AttributeError` at the read step
(`CSVConverter` has no `read_csv_content` method), reports the error,
writes no file and returns `False`; the persist step with the derived
file name is unreachable. -/
theorem c9_correction_workflow_never_persists :
    selectableCsvName "texto_doc.csv".data = true ∧
    correct_csv_text "texto_doc.csv".data =
      ⟨some missingReadMethodMsg, none, false⟩ ∧
    (∀ csvFilename : List Char,
        (correct_csv_text csvFilename).persisted = none ∧
        (correct_csv_text csvFilename).success = false) :=
  ⟨by decide, rfl, fun _ => ⟨rfl, rfl⟩⟩

/-- C10: the summary's total-character-count field is the length of the
whole raw text (line breaks and untrimmed whitespace included), it can
differ from the sum of the per-row character counts of the tabular
file, and — unlike characters — the word-count total always agrees with
the per-row sum. -/
theorem c10_summary_char_total :
    (∀ imageName text outBase ts : List Char,
        (create_summary_csv_row imageName text outBase ts).totalCaracteres =
          text.length) ∧
    ((convert_text_to_csv_rows "a b\nc".data "i.png".data "t".data).map
        CsvRow.caracteres).sum ≠
      (create_summary_csv_row "i.png".data "a b\nc".data "o.csv".data
        "t".data).totalCaracteres ∧
    (∀ text img ts imgS outBase tsS : List Char,
        (create_summary_csv_row imgS text outBase tsS).totalPalavras =
          ((convert_text_to_csv_rows text img ts).map CsvRow.palavras).sum) :=
  ⟨fun _ _ _ _ => rfl, by decide,
   fun text img ts _ _ _ => summary_words_eq_row_sum text img ts⟩
